import Mathlib

/-!
Verification of the ThreadBrain backend (`server/app/main.py`), a FastAPI
application with four GET routes (`/`, `/users`, `/health`, `/test`), a
CORS middleware configuration, and two environment variables
(`CORS_ORIGINS`, `ENVIRONMENT`).

The embedding models the process environment as a partial map from variable
names to string values, Python's `str.split(",")` as a structural recursion
over the character list, each route handler as a Lean function, and request
dispatch as a function from application state, request-time environment and
request to a response paired with the (unchanged) application state.
-/

/-- A process environment: a partial map from variable names to values. -/
def Env : Type := String → Option String

/-- `os.getenv(key, default)`: the value of `key`, or `default` when unset. -/
def getenv (env : Env) (key default : String) : String :=
  (env key).getD default

/-- Python's `str.split(",")` on the underlying character list: splitting an
empty string yields `[[]]`; a comma starts a new (initially empty) segment;
any other character is prepended to the current first segment.  No trimming,
no filtering of empty segments. -/
def splitCommaAux : List Char → List (List Char)
  | [] => [[]]
  | c :: rest =>
    if c = ',' then [] :: splitCommaAux rest
    else
      match splitCommaAux rest with
      | [] => [[c]]
      | g :: gs => (c :: g) :: gs

/-- `v.split(",")` for a Python string `v`. -/
def pySplit (v : String) : List String :=
  (splitCommaAux v.data).map String.mk

/-- Number of comma characters in a character list. -/
def commaCountAux : List Char → Nat
  | [] => 0
  | c :: rest => (if c = ',' then 1 else 0) + commaCountAux rest

/-- Number of comma characters in a string. -/
def commaCount (v : String) : Nat := commaCountAux v.data

/-- Inverse of splitting: rejoin the segments with a comma between each two
consecutive segments. -/
def joinComma : List (List Char) → List Char
  | [] => []
  | [g] => g
  | g :: g2 :: gs => g ++ ',' :: joinComma (g2 :: gs)

/-- Rejoin split strings with commas. -/
def joinCommaS (ss : List String) : String :=
  String.mk (joinComma (ss.map String.data))

theorem splitCommaAux_ne_nil (l : List Char) : splitCommaAux l ≠ [] := by
  cases l with
  | nil => intro h; cases h
  | cons c rest =>
    by_cases hc : c = ','
    · simp [splitCommaAux, hc]
    · cases hg : splitCommaAux rest with
      | nil => simp [splitCommaAux, hc, hg]
      | cons g gs => simp [splitCommaAux, hc, hg]

theorem length_splitCommaAux (l : List Char) :
    (splitCommaAux l).length = commaCountAux l + 1 := by
  induction l with
  | nil => rfl
  | cons c rest ih =>
    by_cases hc : c = ','
    · simp [splitCommaAux, hc, commaCountAux, ih]
      omega
    · cases hg : splitCommaAux rest with
      | nil => exact absurd hg (splitCommaAux_ne_nil rest)
      | cons g gs =>
        rw [hg] at ih
        simp [splitCommaAux, hc, commaCountAux, hg]
        simpa using ih

theorem joinComma_splitCommaAux (l : List Char) :
    joinComma (splitCommaAux l) = l := by
  induction l with
  | nil => rfl
  | cons c rest ih =>
    by_cases hc : c = ','
    · cases hg : splitCommaAux rest with
      | nil => exact absurd hg (splitCommaAux_ne_nil rest)
      | cons g gs =>
        rw [hg] at ih
        simp [splitCommaAux, hc, hg, joinComma]
        exact ih
    · cases hg : splitCommaAux rest with
      | nil => exact absurd hg (splitCommaAux_ne_nil rest)
      | cons g gs =>
        rw [hg] at ih
        cases gs with
        | nil =>
          simp [splitCommaAux, hc, hg, joinComma]
          simpa [joinComma] using ih
        | cons g2 gs2 =>
          simp [splitCommaAux, hc, hg, joinComma]
          simpa [joinComma] using ih

theorem length_pySplit (v : String) :
    (pySplit v).length = commaCount v + 1 := by
  simp [pySplit, commaCount, length_splitCommaAux]

theorem joinCommaS_pySplit (v : String) : joinCommaS (pySplit v) = v := by
  have hmap : (pySplit v).map String.data = splitCommaAux v.data := by
    simp [pySplit, List.map_map]
    exact List.map_id _
  simp only [joinCommaS, hmap, joinComma_splitCommaAux]

theorem pySplit_of_no_comma (v : String) (h : commaCount v = 0) :
    pySplit v = [v] := by
  have hlen : (splitCommaAux v.data).length = 1 := by
    rw [length_splitCommaAux]
    simp [commaCount] at h
    omega
  cases hg : splitCommaAux v.data with
  | nil => exact absurd hg (splitCommaAux_ne_nil _)
  | cons g gs =>
    rw [hg] at hlen
    cases gs with
    | cons g2 gs2 => simp at hlen
    | nil =>
      have hj := joinComma_splitCommaAux v.data
      rw [hg] at hj
      simp [joinComma] at hj
      simp [pySplit, hg, hj]

/-- A user record from the static list in `get_users`. -/
structure User where
  id : Int
  name : String
  email : String
deriving DecidableEq

/-- A JSON response of one of the shapes produced by the four handlers, or
the framework default for an unmatched route or method (404/405). -/
inductive Response where
  | rootResp (message status : String)
  | usersResp (users : List User)
  | healthResp (status environment : String)
  | testResp (message : String) (origins : List String)
  | frameworkDefault
deriving DecidableEq

/-- HTTP status code of a response: every handler response is 200; an
unmatched route or method falls through to a framework error. -/
def Response.statusCode : Response → Nat
  | .frameworkDefault => 404
  | _ => 200

/-- An inbound HTTP request. -/
structure Request where
  method : String
  path : String
  query : List (String × String)
  body : String
deriving DecidableEq

/-- Process-wide application state, fixed at startup. -/
structure AppState where
  cors_origins : List String
deriving DecidableEq

/-- `cors_origins = os.getenv("CORS_ORIGINS", "http://localhost:5173").split(",")`
(main.py line 13), computed once from the startup environment. -/
def startup (env : Env) : AppState :=
  ⟨pySplit (getenv env "CORS_ORIGINS" "http://localhost:5173")⟩

/-- The CORS middleware configuration passed to `app.add_middleware`. -/
structure CORSMiddlewareConfig where
  allow_origins : List String
  allow_credentials : Bool
  allow_methods : List String
  allow_headers : List String
deriving DecidableEq

/-- The application: its installed middleware configuration and its state. -/
structure App where
  middleware : CORSMiddlewareConfig
  state : AppState

/-- Module initialisation (main.py lines 13-22): read `CORS_ORIGINS` once and
install the CORS middleware with the literal arguments of lines 18-21. -/
def buildApp (env : Env) : App :=
  { middleware :=
      { allow_origins := ["*"]
        allow_credentials := true
        allow_methods := ["*"]
        allow_headers := ["*"] }
    state := startup env }

/-- Handler of `GET /` (main.py lines 25-27). -/
def root : Response :=
  .rootResp "FastAPI backend is running 🚀" "healthy"

/-- The static list returned by `GET /users` (main.py lines 30-35). -/
def get_users : List User :=
  [ { id := 1, name := "Nik", email := "nik@example.com" },
    { id := 2, name := "Kev", email := "kev@example.com" } ]

/-- Handler of `GET /health` (main.py lines 38-40): it calls `os.getenv`
at request time, so it takes the request-time environment. -/
def health_check (env : Env) : Response :=
  .healthResp "healthy" (getenv env "ENVIRONMENT" "unknown")

/-- Handler of `GET /test` (main.py lines 43-45): echoes the module-level
`cors_origins` computed at startup. -/
def test_endpoint (st : AppState) : Response :=
  .testResp "CORS is working!" st.cors_origins

/-- Request dispatch: match on method and path, invoke the handler, return
its response together with the (unchanged) application state.  `env` is the
process environment at the time the request is handled. -/
def handle (st : AppState) (env : Env) (req : Request) : Response × AppState :=
  if req.method = "GET" then
    if req.path = "/" then (root, st)
    else if req.path = "/users" then (.usersResp get_users, st)
    else if req.path = "/health" then (health_check env, st)
    else if req.path = "/test" then (test_endpoint st, st)
    else (.frameworkDefault, st)
  else (.frameworkDefault, st)

/-- The four routes' canonical GET requests. -/
def reqRoot : Request := ⟨"GET", "/", [], ""⟩

def reqUsers : Request := ⟨"GET", "/users", [], ""⟩

def reqHealth : Request := ⟨"GET", "/health", [], ""⟩

def reqTest : Request := ⟨"GET", "/test", [], ""⟩

/-- The example environment of the spec scenario:
`ENVIRONMENT=staging`, `CORS_ORIGINS=https://a.com,https://b.com`. -/
def envStagingAB : Env := fun k =>
  if k = "CORS_ORIGINS" then some "https://a.com,https://b.com"
  else if k = "ENVIRONMENT" then some "staging" else none

/-- An environment where only `ENVIRONMENT=staging` is set. -/
def envStaging : Env := fun k =>
  if k = "ENVIRONMENT" then some "staging" else none

/-- An environment where only `ENVIRONMENT=prod` is set. -/
def envProd : Env := fun k =>
  if k = "ENVIRONMENT" then some "prod" else none

/-- An environment where `CORS_ORIGINS` holds whitespace and a trailing
comma. -/
def envMessy : Env := fun k =>
  if k = "CORS_ORIGINS" then some "a, b," else none

/-- An environment where `CORS_ORIGINS` holds a malformed, comma-free
value. -/
def envMalformed : Env := fun k =>
  if k = "CORS_ORIGINS" then some "not a url %%" else none

/-- An empty environment: every variable unset. -/
def envEmpty : Env := fun _ => none

theorem handle_state_eq (st : AppState) (env : Env) (req : Request) :
    (handle st env req).2 = st := by
  unfold handle
  repeat' split
  all_goals rfl

/-- Claim C1: for every environment, `GET /test` returns a body whose
message field is "CORS is working!" and whose origins field equals the
value of `CORS_ORIGINS` split on commas; when `CORS_ORIGINS` is unset,
origins equals `["http://localhost:5173"]`. -/
theorem claim_C1 (env e : Env) :
    (handle (startup env) e reqTest).1
      = Response.testResp "CORS is working!" (startup env).cors_origins ∧
    (∀ v, env "CORS_ORIGINS" = some v → (startup env).cors_origins = pySplit v) ∧
    (env "CORS_ORIGINS" = none →
      (startup env).cors_origins = ["http://localhost:5173"]) := by
  refine ⟨rfl, ?_, ?_⟩
  · intro v hv
    simp [startup, getenv, hv]
  · intro hv
    simp [startup, getenv, hv]
    exact pySplit_of_no_comma _ (by decide)

/-- Witness for C1 at the spec's example environment and at the empty
environment. -/
theorem claim_C1_witness :
    (handle (startup envStagingAB) envStagingAB reqTest).1
      = Response.testResp "CORS is working!" ["https://a.com", "https://b.com"] ∧
    (startup envEmpty).cors_origins = ["http://localhost:5173"] := by
  constructor
  · have h1 := (claim_C1 envStagingAB envStagingAB).1
    have h2 := (claim_C1 envStagingAB envStagingAB).2.1
      "https://a.com,https://b.com" (by decide)
    rw [h1, h2]
    decide
  · exact (claim_C1 envEmpty envEmpty).2.2 rfl

/-- Claim C2 fails on the code: with `ENVIRONMENT=staging` at startup and
`ENVIRONMENT=prod` at request time, `GET /health` returns a different body
than it does under the startup environment, because `health_check` calls
`os.getenv("ENVIRONMENT", ...)` at request time (main.py line 40).  So
handler outputs do not depend only on the environment at startup. -/
theorem claim_C2_counterexample :
    (handle (startup envStaging) envProd reqHealth).1
      ≠ (handle (startup envStaging) envStaging reqHealth).1 := by
  decide

/-- Claim C2 (amended): `CORS_ORIGINS` is read once, at startup, and
`GET /test` echoes that snapshot unaffected by the request-time
environment; `ENVIRONMENT` however is read on each `/health` request, whose
environment field equals the request-time value. -/
theorem claim_C2_amended (env e e2 : Env) :
    (handle (startup env) e reqTest).1
      = Response.testResp "CORS is working!" (startup env).cors_origins ∧
    (handle (startup env) e reqTest).1 = (handle (startup env) e2 reqTest).1 ∧
    (handle (startup env) e reqHealth).1
      = Response.healthResp "healthy" (getenv e "ENVIRONMENT" "unknown") :=
  ⟨rfl, rfl, rfl⟩

/-- Claim C3: the middleware policy installed at startup allows every origin
(wildcard), all methods, all headers, and credentialed requests, and does
not depend on the environment; the parsed `cors_origins` list is only echoed
back by `GET /test`. -/
theorem claim_C3 (env env2 e : Env) :
    (buildApp env).middleware.allow_origins = ["*"] ∧
    (buildApp env).middleware.allow_credentials = true ∧
    (buildApp env).middleware.allow_methods = ["*"] ∧
    (buildApp env).middleware.allow_headers = ["*"] ∧
    (buildApp env).middleware = (buildApp env2).middleware ∧
    (handle (buildApp env).state e reqTest).1
      = Response.testResp "CORS is working!" (buildApp env).state.cors_origins :=
  ⟨rfl, rfl, rfl, rfl, rfl, rfl⟩

/-- Claim C4: `GET /health` returns status "healthy" and an environment
field equal to the request-time `ENVIRONMENT` value, or "unknown" when it
is unset. -/
theorem claim_C4 (st : AppState) (e : Env) :
    (handle st e reqHealth).1
      = Response.healthResp "healthy" (getenv e "ENVIRONMENT" "unknown") ∧
    (∀ v, e "ENVIRONMENT" = some v → getenv e "ENVIRONMENT" "unknown" = v) ∧
    (e "ENVIRONMENT" = none → getenv e "ENVIRONMENT" "unknown" = "unknown") := by
  refine ⟨rfl, ?_, ?_⟩
  · intro v hv
    simp [getenv, hv]
  · intro hv
    simp [getenv, hv]

/-- Witness for C4 at the spec's example environment and at the empty
environment. -/
theorem claim_C4_witness :
    (handle (startup envStagingAB) envStagingAB reqHealth).1
      = Response.healthResp "healthy" "staging" ∧
    getenv envEmpty "ENVIRONMENT" "unknown" = "unknown" := by
  constructor
  · have h1 := (claim_C4 (startup envStagingAB) envStagingAB).1
    have h2 := (claim_C4 (startup envStagingAB) envStagingAB).2.1
      "staging" (by decide)
    rw [h1, h2]
  · exact (claim_C4 ⟨[]⟩ envEmpty).2.2 rfl

/-- Claim C5: `GET /users` returns exactly the two fixed records in order;
ids are integers and distinct, names are non-empty, and each email contains
the character at-sign. -/
theorem claim_C5 (st : AppState) (e : Env) :
    (handle st e reqUsers).1 = Response.usersResp get_users ∧
    get_users = [ ⟨1, "Nik", "nik@example.com"⟩, ⟨2, "Kev", "kev@example.com"⟩ ] ∧
    get_users.length = 2 ∧
    (get_users.map User.id).Nodup ∧
    get_users.all (fun u => u.name != "" && u.email.data.contains '@') = true :=
  ⟨rfl, rfl, rfl, by decide, by decide⟩

/-- Claim C6: computing `cors_origins` at startup is total for every set
`CORS_ORIGINS` value (the split always yields commas-plus-one segments,
hence a non-empty list), a comma-free (malformed) value is simply split
into the single-element list holding it, and every handled request yields
either a 200 handler response or the framework default error. -/
theorem claim_C6 (env : Env) (v : String) (h : env "CORS_ORIGINS" = some v) :
    (startup env).cors_origins ≠ [] ∧
    (startup env).cors_origins.length = commaCount v + 1 ∧
    (commaCount v = 0 → (startup env).cors_origins = [v]) ∧
    (∀ st e req, (handle st e req).1.statusCode = 200 ∨
      (handle st e req).1 = Response.frameworkDefault) := by
  have hs : (startup env).cors_origins = pySplit v := by
    simp [startup, getenv, h]
  refine ⟨?_, ?_, ?_, ?_⟩
  · rw [hs]
    have hl := length_pySplit v
    intro hnil
    rw [hnil] at hl
    simp at hl
  · rw [hs]
    exact length_pySplit v
  · intro h0
    rw [hs]
    exact pySplit_of_no_comma v h0
  · intro st e req
    unfold handle
    repeat' split
    all_goals simp [Response.statusCode, root, health_check, test_endpoint]

/-- Witness for C6 at a malformed, comma-free `CORS_ORIGINS` value. -/
theorem claim_C6_witness :
    envMalformed "CORS_ORIGINS" = some "not a url %%" ∧
    (startup envMalformed).cors_origins = ["not a url %%"] := by
  refine ⟨by decide, ?_⟩
  exact (claim_C6 envMalformed "not a url %%" (by decide)).2.2.1 (by decide)

/-- Claim C7: request handling is deterministic and idempotent: handling the
same request twice in sequence (under the same environment snapshot) yields
equal responses, and the state after handling equals the state before. -/
theorem claim_C7 (st : AppState) (e : Env) (req : Request) :
    (handle ((handle st e req).2) e req).1 = (handle st e req).1 ∧
    (handle st e req).2 = st := by
  constructor
  · rw [handle_state_eq]
  · exact handle_state_eq st e req

theorem handle_env_eq (st : AppState) (e e2 : Env) (req : Request)
    (hp : req.path ≠ "/health") :
    (handle st e req).1 = (handle st e2 req).1 := by
  unfold handle
  by_cases hm : req.method = "GET" <;>
    by_cases h1 : req.path = "/" <;>
    by_cases h2 : req.path = "/users" <;>
    by_cases h4 : req.path = "/test" <;>
    simp_all

/-- Claim C8 fails on the code: with the same process-startup state, the
same `GET /health` request handled under two request-time environments
yields different responses, because `health_check` reads `ENVIRONMENT` at
request time (main.py line 40).  So a handler's output is not a pure
function of process-startup state alone. -/
theorem claim_C8_counterexample :
    (handle (startup envEmpty) envProd reqHealth).1
      ≠ (handle (startup envEmpty) envEmpty reqHealth).1 := by
  decide

/-- Claim C8 (amended): every handler is a pure function of process-startup
state together with the request-time environment, with no side effects:
handling any request leaves the application state (hence the parsed
`cors_origins` list) unchanged, the response does not depend on the
request's query parameters or body, every route other than `/health` is
also independent of the request-time environment (only `health_check`
reads `ENVIRONMENT` at request time), and the user list observed through
`GET /users` after any request is still the fixed list. -/
theorem claim_C8_amended (st : AppState) (e e2 : Env) (m p : String)
    (q q2 : List (String × String)) (b b2 : String) :
    (handle st e ⟨m, p, q, b⟩).2 = st ∧
    (handle st e ⟨m, p, q, b⟩).1 = (handle st e ⟨m, p, q2, b2⟩).1 ∧
    (p ≠ "/health" →
      (handle st e ⟨m, p, q, b⟩).1 = (handle st e2 ⟨m, p, q, b⟩).1) ∧
    (handle ((handle st e ⟨m, p, q, b⟩).2) e reqUsers).1
      = Response.usersResp get_users := by
  refine ⟨handle_state_eq st e ⟨m, p, q, b⟩, rfl, ?_, ?_⟩
  · intro hp
    exact handle_env_eq st e e2 ⟨m, p, q, b⟩ hp
  · rw [handle_state_eq]
    rfl

/-- Witness for the amended C8: a `/test` request with query parameters and
a body yields the same response under two different request-time
environments. -/
theorem claim_C8_witness :
    (handle (startup envEmpty) envStaging
        ⟨"GET", "/test", [("sort", "asc")], "payload"⟩).1
      = (handle (startup envEmpty) envProd
        ⟨"GET", "/test", [("sort", "asc")], "payload"⟩).1 := by
  exact (claim_C8_amended (startup envEmpty) envStaging envProd "GET" "/test"
    [("sort", "asc")] [("sort", "asc")] "payload" "payload").2.2.1 (by decide)

/-- Claim C9: `GET /` always returns HTTP 200 with a body carrying the
startup banner message and status "healthy". -/
theorem claim_C9 (st : AppState) (e : Env) :
    (handle st e reqRoot).1 = root ∧
    root = Response.rootResp "FastAPI backend is running 🚀" "healthy" ∧
    (handle st e reqRoot).1.statusCode = 200 :=
  ⟨rfl, rfl, rfl⟩

/-- Claim C10: the comma-split performs no trimming and no filtering:
rejoining the segments with commas restores the original value exactly, the
number of segments is always the comma count plus one, and `GET /test`
returns exactly that split for every set `CORS_ORIGINS` value. -/
theorem claim_C10 (v : String) :
    joinCommaS (pySplit v) = v ∧
    (pySplit v).length = commaCount v + 1 ∧
    ∀ env e, env "CORS_ORIGINS" = some v →
      (handle (startup env) e reqTest).1
        = Response.testResp "CORS is working!" (pySplit v) := by
  refine ⟨joinCommaS_pySplit v, length_pySplit v, ?_⟩
  intro env e hv
  have hs : (startup env).cors_origins = pySplit v := by
    simp [startup, getenv, hv]
  have h1 : (handle (startup env) e reqTest).1
      = Response.testResp "CORS is working!" (startup env).cors_origins := rfl
  rw [h1, hs]

/-- Witness for C10: the value "a, b," splits into ["a", " b", ""], with the
inner space and the trailing empty segment preserved. -/
theorem claim_C10_witness :
    (handle (startup envMessy) envMessy reqTest).1
      = Response.testResp "CORS is working!" ["a", " b", ""] := by
  have h := (claim_C10 "a, b,").2.2 envMessy envMessy (by decide)
  rw [h]
  decide
